import Mathlib

/-!
Verification of the AD-Geny storyboard-generation pipeline.

This file is a shallow embedding of the repository's core pipeline:
the Pydantic record shapes (`models.py`), the ad-details stage
(`ad_details_generator.py`) and the scene / prompt-derivation stages
(`scene_generator.py`).  The external text-completion capability and the
structured parse capability are passed in as function parameters
(`complete : String → String`, `parse : String → Option α`); `none` models
a parse failure (a raised exception in the Python source).  Prompt strings
are reproduced from the source f-string templates; `\x7b`/`\x7d` denote
literal braces, `\x27` a literal apostrophe, `\x60` a literal backtick.
-/

/-- `models.Scene`: user-supplied partial scene input; all fields are
`Optional[str] = None` in the source. -/
structure Scene where
  characters : Option String := none
  environment : Option String := none
  timing_of_day : Option String := none
  scene_duration : Option String := none
  scene_goal : Option String := none
  user_recommendation : Option String := none
deriving Repr, DecidableEq

/-- `models.AdStoryboardRequest`: the campaign request, all fields optional
(`number_of_scenes : Optional[int]`, the rest `Optional[str]`). -/
structure AdStoryboardRequest where
  product_name : Option String := none
  product_description : Option String := none
  target_audience : Option String := none
  selling_point : Option String := none
  key_message : Option String := none
  duration_of_ad : Option String := none
  tone : Option String := none
  purpose : Option String := none
  country : Option String := none
  number_of_scenes : Option Int := none
  scenes : Option (List Scene) := none
deriving Repr, DecidableEq

/-- `models.AdDetails`: fully resolved campaign attributes (all required). -/
structure AdDetails where
  product_name : String
  product_description : String
  target_audience : String
  selling_point : String
  key_message : String
  duration_of_ad : String
  tone : String
  purpose : String
  country : String
  number_of_scenes : Int
deriving Repr, DecidableEq

/-- `models.SceneOutput`: the fully resolved scene record.  Note that the
source declares NO `user_recommendation` field on this shape. -/
structure SceneOutput where
  scene_number : Int
  characters : String
  environment : String
  timing_of_day : String
  scene_duration : String
  scene_goal : String
  visuals : String
  camera_work : String
  sound_design : String
  transition : String
deriving Repr, DecidableEq

/-- `models.CharacterDetails`. -/
structure CharacterDetails where
  name : String
  appearance : String
  clothing : String
  expression : String
deriving Repr, DecidableEq

/-- `models.TextToImagePrompt`; `style_type` and `style_reference` carry the
declared Pydantic default values. -/
structure TextToImagePrompt where
  scene_number : Int
  characters : List CharacterDetails
  action : String
  environment_location : String
  environment_lighting : String
  environment_details : String
  style_type : String := "Photorealistic CGI"
  style_technique : String
  style_reference : String := "Gregory Crewdson"
deriving Repr, DecidableEq

/-- `models.ImageToVideoPrompt`; same shape (and defaults) as
`TextToImagePrompt` in the source. -/
structure ImageToVideoPrompt where
  scene_number : Int
  characters : List CharacterDetails
  action : String
  environment_location : String
  environment_lighting : String
  environment_details : String
  style_type : String := "Photorealistic CGI"
  style_technique : String
  style_reference : String := "Gregory Crewdson"
deriving Repr, DecidableEq

/-- Python `x or d` for `x : Optional[str]`: `None` and the empty string are
falsy, any other string is returned unchanged. -/
def pyOr (x : Option String) (d : String) : String :=
  match x with
  | none => d
  | some s => if s = "" then d else s

/-- Python truthiness of an `Optional[str]` value. -/
def pyTruthy (x : Option String) : Bool :=
  match x with
  | none => false
  | some s => s != ""

/-- Python f-string rendering of an `Optional[int]` value: `None` renders as
the text `"None"`, an integer as its decimal form. -/
def pyStrOptInt (x : Option Int) : String :=
  match x with
  | none => "None"
  | some n => toString n

/-- Substring occurrence: `Occurs sub s` holds when `sub` appears contiguously
inside `s` (Python `sub in s`). -/
def Occurs (sub s : String) : Prop :=
  sub.data <:+: s.data

instance (sub s : String) : Decidable (Occurs sub s) :=
  inferInstanceAs (Decidable (sub.data <:+: s.data))

theorem Occurs.appendLeft {t s : String} (h : Occurs t s) (u : String) :
    Occurs t (s ++ u) := by
  rcases h with ⟨a, b, hab⟩
  exact ⟨a, b ++ u.data, by rw [String.data_append, ← hab]; simp⟩

theorem Occurs.appendRight {t s : String} (h : Occurs t s) (u : String) :
    Occurs t (u ++ s) := by
  rcases h with ⟨a, b, hab⟩
  exact ⟨u.data ++ a, b, by rw [String.data_append, ← hab]; simp⟩

theorem occurs_self (t : String) : Occurs t t :=
  ⟨[], [], by simp⟩

theorem occurs_mid (pre t post : String) : Occurs t (pre ++ t ++ post) := by
  rw [String.append_assoc]
  exact ((occurs_self t).appendLeft post).appendRight pre

/-- Concatenation of a list of string chunks (the f-string templates below are
written as chunk lists, alternating literal text and spliced values). -/
def strConcat : List String → String
  | [] => ""
  | c :: cs => c ++ strConcat cs

/-- Occurrence in one chunk lifts to the concatenation. -/
theorem occurs_concat {t c : String} {L : List String} (hm : c ∈ L)
    (h : Occurs t c) : Occurs t (strConcat L) := by
  induction L with
  | nil => cases hm
  | cons x xs ih =>
      rcases List.mem_cons.mp hm with h1 | h2
      · subst h1
        exact h.appendLeft (strConcat xs)
      · exact (ih h2).appendRight x

/-- The structured-generation pattern shared by every call site
(`ad_details_generator.generate_ad_details`, `scene_generator` methods):
one completion + parse attempt; on parse failure, one completion + parse
attempt with the reinforced retry prompt; a second failure propagates
(`none`).  The second component counts completion invocations. -/
def structuredGen {α : Type} (complete : String → String)
    (parse : String → Option α) (p r : String) : Option α × Nat :=
  match parse (complete p) with
  | some a => (some a, 1)
  | none =>
    match parse (complete r) with
    | some a => (some a, 2)
    | none => (none, 2)

namespace AdDetailsGenerator

/-- The f-string `prompt` of `AdDetailsGenerator.generate_ad_details`
(`ad_details_generator.py` lines 26-56), as a chunk list. -/
def adDetailsPrompt (format_instructions : String)
    (request : AdStoryboardRequest) : String :=
  strConcat [
    "\n        Based on the provided advertisement information, generate comprehensive ad details.\n        Fill in any missing information based on the context and marketing best practices.\n        \n        ",
    format_instructions,
    "\n        \n        Input information:\n        ",
    "- Product Name: " ++ pyOr request.product_name "Not specified",
    "\n        ",
    "- Product Description: " ++ pyOr request.product_description "Not specified",
    "\n        ",
    "- Target Audience: " ++ pyOr request.target_audience "Not specified",
    "\n        ",
    "- Selling Point: " ++ pyOr request.selling_point "Not specified",
    "\n        ",
    "- Key Message: " ++ pyOr request.key_message "Not specified",
    "\n        ",
    "- Duration of Ad: " ++ pyOr request.duration_of_ad "Not specified",
    "\n        ",
    "- Tone: " ++ pyOr request.tone "Not specified",
    "\n        ",
    "- Purpose: " ++ pyOr request.purpose "Not specified",
    "\n        ",
    "- Country: " ++ pyOr request.country "Not specified",
    "\n        ",
    "- Number of Scenes: " ++ pyStrOptInt request.number_of_scenes,
    "\n        \n        Guidelines:\n        1. If a product name is not provided, create a unique and memorable name based on the product description.\n        2. If product description is not provided, create a comprehensive description of what the product is and its benefits.\n        3. If target audience is not specified, determine the most appropriate target audience based on the product.\n        4. If selling point is not specified, identify the most compelling unique value proposition.\n        5. If key message is not specified, craft a resonant core message aligned with the selling point.\n        6. If duration is not specified, suggest an appropriate length based on industry standards.\n        7. If tone is not specified, recommend a tone that matches the product and target audience.\n        8. If purpose is not specified, determine whether it\x27s for brand awareness, product launch, etc.\n        9. If country is not specified, use \"International\" or \"Global\".\n\n        For all responses, be specific, creative, and marketing-focused.\n        "]

/-- The `retry_prompt` of `AdDetailsGenerator.generate_ad_details`
(`ad_details_generator.py` lines 66-88). -/
def adDetailsRetryPrompt (format_instructions : String)
    (request : AdStoryboardRequest) : String :=
  strConcat [
    "\n            ",
    adDetailsPrompt format_instructions request,
    "\n            \n            Your previous response couldn\x27t be parsed correctly. Please ensure you structure your response \n            in a valid JSON format following the exact structure below:\n            \n            \x60\x60\x60json\n            \x7b\n                \"product_name\": \"Product Name\",\n                \"product_description\": \"Comprehensive product description\",\n                \"target_audience\": \"Specific target demographic\",\n                \"selling_point\": \"Main unique value proposition\",\n                \"key_message\": \"Core message for the ad\",\n                \"duration_of_ad\": \"Duration in seconds/minutes\",\n                \"tone\": \"Emotional tone of the ad\",\n                \"purpose\": \"Purpose of the advertisement\",\n                \"country\": \"Target market\",\n                \"number_of_scenes\": ",
    pyStrOptInt request.number_of_scenes,
    "\n            \x7d\n            \x60\x60\x60\n            \n            Provide only this JSON structure in your response, without any additional text.\n            "]

/-- `AdDetailsGenerator.generate_ad_details`: one structured-generation call
against the `AdDetails` shape. -/
def generate_ad_details (complete : String → String)
    (parse : String → Option AdDetails) (format_instructions : String)
    (request : AdStoryboardRequest) : Option AdDetails :=
  (structuredGen complete parse
    (adDetailsPrompt format_instructions request)
    (adDetailsRetryPrompt format_instructions request)).1

end AdDetailsGenerator

/-- Sequential per-item generation with failure propagation: the Python `for`
loops append each generated record; any raised parse failure aborts the whole
stage (`none`). -/
def optTraverse {α β : Type} (f : α → Option β) : List α → Option (List β)
  | [] => some []
  | x :: xs =>
    match f x, optTraverse f xs with
    | some y, some ys => some (y :: ys)
    | _, _ => none

namespace SceneGenerator

/-- The non-empty case of the `priority_instructions` f-string of
`SceneGenerator._generate_single_scene` (`scene_generator.py` lines 60-72),
with the truthy `user_recommendation` value `r` spliced in. -/
def scenePriorityBlock (r : String) : String :=
  strConcat [
    "\n        ",
    "CRITICAL USER SCENE DESCRIPTION - MUST INCLUDE VERBATIM:\n        " ++ r,
    "\n\n        STRICT RULES:\n        1. ALL elements below must align with this description\n        2. NEVER contradict or omit any details from it\n        3. Only add technical details (camera/sound) that support this vision\n        4. Preserve all:\n        - Character actions \n        - Dialogue \n        - Key visuals \n            "]

/-- The `priority_instructions` value of
`SceneGenerator._generate_single_scene` (`scene_generator.py` lines 57-72):
empty unless the scene input carries a truthy `user_recommendation`. -/
def scenePriorityInstructions (input_scene : Scene) : String :=
  match input_scene.user_recommendation with
  | none => ""
  | some r => if r = "" then "" else scenePriorityBlock r

/-- The f-string `prompt` of `SceneGenerator._generate_single_scene`
(`scene_generator.py` lines 74-126). -/
def scenePrompt (format_instructions : String) (scene_number : Int)
    (input_scene : Scene) (ad_details : AdDetails) : String :=
  strConcat [
    "\n        Generate a detailed scene for an advertisement storyboard based on the provided information.\n        \n        \n        Ad Details:\n        ",
    "- Product Name: " ++ ad_details.product_name,
    "\n        ",
    "- Product Description: " ++ ad_details.product_description,
    "\n        ",
    "- Target Audience: " ++ ad_details.target_audience,
    "\n        ",
    "- Selling Point: " ++ ad_details.selling_point,
    "\n        ",
    "- Key Message: " ++ ad_details.key_message,
    "\n        ",
    "- Duration of Ad: " ++ ad_details.duration_of_ad,
    "\n        ",
    "- Tone: " ++ ad_details.tone,
    "\n        ",
    "- Purpose: " ++ ad_details.purpose,
    "\n        ",
    "- Country/Target Market: " ++ ad_details.country,
    "\n        \n        Input Scene Details (Scene " ++ toString scene_number ++ "):\n        ",
    "- Characters: " ++ pyOr input_scene.characters "Not specified",
    "\n        ",
    "- Environment: " ++ pyOr input_scene.environment "Not specified",
    "\n        ",
    "- Time of Day: " ++ pyOr input_scene.timing_of_day "Not specified",
    "\n        ",
    "- Scene Duration: " ++ pyOr input_scene.scene_duration "Not specified",
    "\n        ",
    "- Scene Goal: " ++ pyOr input_scene.scene_goal "Not specified",
    "\n        ",
    "- User Recommendations: " ++ pyOr input_scene.user_recommendation "Not specified (follow normal generation)",
    "\n        \n        ",
    scenePriorityInstructions input_scene,
    "\n\n        this is the format isntructions\n        ",
    format_instructions,
    "\n\n        Generation Rules:\n        1. IF USER RECOMMENDATIONS EXIST:\n        - Implement them EXACTLY as written\n        - All other fields must support and align with them\n        - Do not add interpretations or modifications\n        2. IF NO USER RECOMMENDATIONS:\n        - Generate comprehensive scene details following marketing best practices\n        - Ensure alignment with ad details and product goals\n\n        Guidelines for scene creation:\n        1. If characters are not specified, create appropriate characters for the target audience and the target market.\n        2. If environment is not specified, create a suitable setting based on the product and audience.\n        3. If time of day is not specified, select an appropriate time that enhances the scene.\n        4. If scene duration is not specified, suggest an appropriate duration based on the scene\x27s importance and the duration of the ad.\n        5. If scene goal is not specified, determine a goal that supports the overall ad purpose.\n        6. Create detailed descriptions for each of these required output components:\n           - Visual elements (environment details, character appearances, actions)\n           - Camera work (angles, movements, focus points)\n           - Sound design (music, effects, dialogue/narration)\n           - Transition to the next scene\n        7. Each scene should clearly contribute to the overall ad narrative and selling points.\n        ",
    "8. The scene must clearly mention the Key Message: " ++ ad_details.key_message,
    "\n        \n        Be creative, specific, and focused on marketing effectiveness.\n        "]

/-- The `retry_prompt` of `SceneGenerator._generate_single_scene`
(`scene_generator.py` lines 136-158). -/
def sceneRetryPrompt (format_instructions : String) (scene_number : Int)
    (input_scene : Scene) (ad_details : AdDetails) : String :=
  strConcat [
    "\n            ",
    scenePrompt format_instructions scene_number input_scene ad_details,
    "\n            \n            Your previous response couldn\x27t be parsed correctly. Please ensure you structure your response \n            in a valid JSON format following the exact structure below:\n            \n            \x60\x60\x60json\n            \x7b\n                \"scene_number\": " ++ toString scene_number ++ ",",
    "\n                \"characters\": \"Detailed character descriptions\",\n                \"environment\": \"Detailed environment description\",\n                \"timing_of_day\": \"Specific time of day\",\n                \"scene_duration\": \"Duration in seconds\",\n                \"scene_goal\": \"Specific goal for this scene\",\n                \"visuals\": \"Detailed visual elements description\",\n                \"camera_work\": \"Camera angles and movements\",\n                \"sound_design\": \"Music, effects, and dialogue\",\n                \"transition\": \"Transition to the next scene\"\n            \x7d\n            \x60\x60\x60\n            \n            Provide only this JSON structure in your response, without any additional text.\n            "]

/-- `SceneGenerator._generate_single_scene`: one structured-generation call
against the `SceneOutput` shape.  The parsed record is returned as-is on both
the first-attempt and retry paths (no post-processing). -/
def generate_single_scene (complete : String → String)
    (parse : String → Option SceneOutput) (format_instructions : String)
    (scene_number : Int) (input_scene : Scene) (ad_details : AdDetails) :
    Option SceneOutput :=
  (structuredGen complete parse
    (scenePrompt format_instructions scene_number input_scene ad_details)
    (sceneRetryPrompt format_instructions scene_number input_scene ad_details)).1

/-- The `if not input_scenes: input_scenes = []` normalisation at the top of
`SceneGenerator.generate_scenes`: a missing list becomes the empty list (an
empty list is already empty, so Python truthiness adds nothing further). -/
def resolveInputScenes (input_scenes : Option (List Scene)) : List Scene :=
  match input_scenes with
  | none => []
  | some l => l

/-- `SceneGenerator.generate_scenes`: loops `i` from 1 to
`ad_details.number_of_scenes`, picking `input_scenes[i-1]` when present
(`i <= len(input_scenes)`) and an empty `Scene()` otherwise. -/
def generate_scenes (complete : String → String)
    (parse : String → Option SceneOutput) (format_instructions : String)
    (ad_details : AdDetails) (input_scenes : Option (List Scene)) :
    Option (List SceneOutput) :=
  optTraverse
    (fun (j : Nat) => generate_single_scene complete parse format_instructions
      ((j : Int) + 1) ((resolveInputScenes input_scenes).getD j {}) ad_details)
    (List.range ad_details.number_of_scenes.toNat)

end SceneGenerator

namespace SceneGenerator

/-- `getattr(scene, "user_recommendation", None)` as probed by
`_generate_single_txt2img_prompt` and `_generate_single_img2vid_prompt`:
`models.SceneOutput` declares no `user_recommendation` field, so the probe
always yields the `getattr` default `None`. -/
def sceneOutputUserRec (_scene : SceneOutput) : Option String := none

/-- The `priority_instructions` block of
`SceneGenerator._generate_single_txt2img_prompt`
(`scene_generator.py` lines 182-192). -/
def txt2imgPriorityInstructions (scene : SceneOutput) : String :=
  match sceneOutputUserRec scene with
  | none => ""
  | some r =>
    if r = "" then ""
    else strConcat [
      "\n            ",
      "USER VISUAL INSTRUCTIONS (MUST FOLLOW EXACTLY):\n            " ++ r,
      "\n\n            RULES:\n            1. These visual descriptions take PRECEDENCE over all generated content\n            2. Translate them DIRECTLY into the image prompt without modification\n            3. Ensure all prompt sections align with these instructions\n            "]

/-- The f-string `prompt` of `SceneGenerator._generate_single_txt2img_prompt`
(`scene_generator.py` lines 194-243). -/
def txt2imgPrompt (format_instructions : String) (scene : SceneOutput) :
    String :=
  strConcat [
    "\n\n        Create a detailed text-to-image prompt for Scene " ++ toString scene.scene_number ++ " following this EXACT format:\n        ",
    format_instructions,
    "\n\n        TEXT-TO-IMAGE PROMPT FOR SCENE " ++ toString scene.scene_number ++ ":\n        CHARACTERS:\n        [For each character in the scene]\n        - Character Name: [Character Name]\n        - Appearance: [age, gender, distinctive physical features]\n        - Clothing: [detailed outfit description + accessories]\n        - Expression: [specific emotion + facial details]\n\n        ACTION: \n        - [Precise single-moment action using active verbs]\n        - *Example:* \"Right hand gripping sword hilt while left arm shields face\"\n\n        ENVIRONMENT:\n        - Location: [specific setting + key objects]\n        - Lighting: [time of day + light quality]\n        - Details: [notable atmospheric elements]\n\n        STYLE:\n        - Type: Photorealistic CGI(MUST USE THIS EXACTLY)\n        - Technique: [specific rendering technique like \"tilt-shift depth of field\"]\n        - Reference:Gregory Crewdson (MUST USE THIS EXACTLY)\n\n\n        ---\n        \n\n        \n        Scene Details to Incorporate:\n        ",
    "- Characters: " ++ scene.characters,
    "\n        ",
    "- Environment: " ++ scene.environment,
    "\n        ",
    "- Time of Day: " ++ scene.timing_of_day,
    "\n        ",
    "- Visuals: " ++ scene.visuals,
    "\n        ",
    "- Camera Work: " ++ scene.camera_work,
    "\n        \n        ",
    txt2imgPriorityInstructions scene,
    "\n\n        STRICT RULES:\n        1. NEVER merge categories - keep CHARACTERS/ACTION/ENVIRONMENT/STYLE strictly separated\n        2. The prompt must describe a SINGLE frozen moment (no sequential actions)\n        3. Prioritize atomic details (e.g. \"frayed red shoelace on left boot\")\n        4. If user instructions exist, implement them exactly as provided\n        5. Use active voice and specific visual descriptors\n        6. For scenes with multiple characters, include ALL characters with separate Appearance, Clothing, and Expression fields\n        7. Format each character\x27s details on separate lines as shown in the CHARACTER section\n        "]

/-- The `retry_prompt` of `SceneGenerator._generate_single_txt2img_prompt`
(`scene_generator.py` lines 256-282). -/
def txt2imgRetryPrompt (format_instructions : String) (scene : SceneOutput) :
    String :=
  strConcat [
    "\n                ",
    txt2imgPrompt format_instructions scene,
    "\n                \n                Your previous response couldn\x27t be parsed correctly. Please ensure you structure your response \n                in a valid JSON format following the exact structure below:\n                \n                \x60\x60\x60json\n                \x7b\n                    \"scene_number\": " ++ toString scene.scene_number ++ ",",
    "\n                    \"characters\": [\n                        \x7b\n                            \"name\": \"Character Name\",\n                            \"appearance\": \"Detailed appearance description\",\n                            \"clothing\": \"Detailed clothing description\",\n                            \"expression\": \"Specific facial expression\"\n                        \x7d\n                    ],\n                    \"action\": \"Precise single-moment action\",\n                    \"environment_location\": \"Specific setting description\",\n                    \"environment_lighting\": \"Detailed lighting description\",\n                    \"environment_details\": \"Notable environmental elements\",\n                    \"style_type\": \"Photorealistic CGI\",\n                    \"style_technique\": \"Specific rendering technique\",\n                    \"style_reference\": \"Gregory Crewdson\"\n                \x7d\n            Provide only this JSON structure in your response, without any additional text.\n            "]

/-- `SceneGenerator._generate_single_txt2img_prompt`: one
structured-generation call; on either successful path the parsed record's
`scene_number` is overwritten with the source scene's number. -/
def generate_single_txt2img_prompt (complete : String → String)
    (parse : String → Option TextToImagePrompt) (format_instructions : String)
    (scene : SceneOutput) : Option TextToImagePrompt :=
  ((structuredGen complete parse
    (txt2imgPrompt format_instructions scene)
    (txt2imgRetryPrompt format_instructions scene)).1).map
    (fun t => { t with scene_number := scene.scene_number })

/-- `SceneGenerator.generate_text_to_image_prompts`: one derivation per scene,
in order, failure propagating. -/
def generate_text_to_image_prompts (complete : String → String)
    (parse : String → Option TextToImagePrompt) (format_instructions : String)
    (scenes : List SceneOutput) : Option (List TextToImagePrompt) :=
  optTraverse
    (generate_single_txt2img_prompt complete parse format_instructions) scenes

/-- The `', '.join(...)` comprehension over `txt2img_prompt.characters` in
`_generate_single_img2vid_prompt` (`scene_generator.py` line 364). -/
def joinCharacterDetails (chars : List CharacterDetails) : String :=
  String.intercalate ", " (chars.map (fun char =>
    "Character Name: " ++ char.name ++ ", Appearance: " ++ char.appearance ++
      ", Clothing: " ++ char.clothing ++ ", Expression: " ++ char.expression))

/-- The `priority_instructions` block of
`SceneGenerator._generate_single_img2vid_prompt`
(`scene_generator.py` lines 310-320). -/
def img2vidPriorityInstructions (scene : SceneOutput) : String :=
  match sceneOutputUserRec scene with
  | none => ""
  | some r =>
    if r = "" then ""
    else strConcat [
      "\n            ",
      "USER VISUAL INSTRUCTIONS (MUST FOLLOW EXACTLY):\n            " ++ r,
      "\n            \n            RULES:\n            1. These visual descriptions take PRECEDENCE over all generated content\n            2. Translate them DIRECTLY into the video prompt without modification\n            3. Ensure all prompt sections align with these instructions\n            "]

/-- The f-string `prompt` of `SceneGenerator._generate_single_img2vid_prompt`
(`scene_generator.py` lines 322-381). -/
def img2vidPrompt (format_instructions : String) (scene : SceneOutput)
    (txt2img_prompt : TextToImagePrompt) : String :=
  strConcat [
    "\n        Create a detailed image-to-video prompt for Scene " ++ toString scene.scene_number ++ " following this EXACT format:\n        ",
    format_instructions,
    "\n        IMAGE-TO-VIDEO PROMPT FOR SCENE " ++ toString scene.scene_number ++ ":\n        CHARACTER:\n\x60       [For each character in the scene]\n        - Character Name: [Character Name]\n        - Appearance: [age, gender, distinctive physical features]\n        - Clothing: [detailed outfit description + accessories]\n        - Expression: [specific emotion + facial details]\x60\n\n        ACTION: \n        - Timed Action: [precise 0.5s-3s action with timing markers]\n        - Object Interaction: [specific items being manipulated]\n        - Motion FX: [required effects like \"smear frames\" or \"impact blur\"]\n\n        ENVIRONMENT:\n        - FG: [Interactive foreground elements with parallax details]\n        - MG: [Midground setting + specific camera movement]\n        - BG: [Atmospheric background + depth effects]\n        - Lighting: [dynamic lighting changes if any]\n\n        STYLE:\n        - Type: Photorealistic CGI (MUST USE THIS EXACTLY)\n        - Technique: [specific rendering technique like \"motion blur + smear frames\"]\n        - Reference: Gregory Crewdson (MUST USE THIS EXACTLY)\n        - FPS: [required frame rate, typically 24 or 30]\n        - Camera: [specific camera movement and lens details]\n        - Negative Prompts: [elements to avoid in generation]\n\n        ---\n        \n        \n        \n        BASE SCENE DETAILS:\n        ",
    "- Characters: " ++ scene.characters,
    "\n        ",
    "- Environment: " ++ scene.environment,
    "\n        ",
    "- Time of Day: " ++ scene.timing_of_day,
    "\n        ",
    "- Visuals: " ++ scene.visuals,
    "\n        ",
    "- Camera Work: " ++ scene.camera_work,
    "\n        \n        TEXT-TO-IMAGE PROMPT TO ANIMATE:\n        ",
    "- Characters: " ++ joinCharacterDetails txt2img_prompt.characters,
    "\n        ",
    "- Action: " ++ txt2img_prompt.action,
    "\n        ",
    "- Environment: " ++ txt2img_prompt.environment_location ++ ", " ++ txt2img_prompt.environment_lighting,
    "\n        ",
    "- Style: " ++ txt2img_prompt.style_type ++ ", " ++ txt2img_prompt.style_technique,
    "\n        \n        ",
    img2vidPriorityInstructions scene,
    "\n        WAN2.1 STRICT RULES:\n        1. Time ALL actions (e.g. \"1.2s sword draw from scabbard\")\n        2. Specify hair/cloth physics (e.g. \"left pigtail swings 30° right on impact\")\n        3. Use anime motion terms: \"smear\", \"impact frame\", \"stretch frame\"\n        4. Camera MUST move (no static shots) - specify movement type\n        5. Include parallax and layered depth in environment\n        6. Use exact durations for all actions and transitions\n        7. Each prompt must represent a SINGLE high-impact motion sequence\n        8. Specify at least 3 keyframes in the action description\n        9. For scenes with multiple characters, include ALL characters with separate Appearance, Clothing Physics, Expression, and Base Pose fields\n        10. Format each character\x27s details on separate lines as shown in the CHARACTER section\n        "]

/-- The `retry_prompt` of `SceneGenerator._generate_single_img2vid_prompt`
(`scene_generator.py` lines 394-421). -/
def img2vidRetryPrompt (format_instructions : String) (scene : SceneOutput)
    (txt2img_prompt : TextToImagePrompt) : String :=
  strConcat [
    "\n            ",
    img2vidPrompt format_instructions scene txt2img_prompt,
    "\n        \n            Your previous response couldn\x27t be parsed correctly. Please ensure you structure your response \n            in a valid JSON format following the exact structure below:\n            \n            \x60\x60\x60json\n            \x7b\n                \"scene_number\": " ++ toString scene.scene_number ++ ",",
    "\n                \"characters\": [\n                    \x7b\n                        \"name\": \"Character Name\",\n                        \"appearance\": \"1girl/1boy, age, body type with hair motion details\",\n                        \"clothing\": \"Clothing with physics description\",\n                        \"expression\": \"Expression with timing details\",\n                        \"base_pose\": \"Starting pose before action\"\n                    \x7d\n                ],\n                \"action\": \"Timed action with object interaction and motion FX\",\n                \"environment_location\": \"FG/MG/BG with parallax details\",\n                \"environment_lighting\": \"Dynamic lighting description\",\n                \"environment_details\": \"Layered environment specifics\",\n                \"style_type\": \"Photorealistic CGI\",\n                \"style_technique\": \"Specific animation technique\",\n                \"style_reference\": \"Gregory Crewdson\"\n            \x7d\n    Provide only this JSON structure in your response, without any additional text.\n    "]

/-- `SceneGenerator._generate_single_img2vid_prompt`: one
structured-generation call; on either successful path the parsed record's
`scene_number` is overwritten with the source scene's number. -/
def generate_single_img2vid_prompt (complete : String → String)
    (parse : String → Option ImageToVideoPrompt) (format_instructions : String)
    (scene : SceneOutput) (txt2img_prompt : TextToImagePrompt) :
    Option ImageToVideoPrompt :=
  ((structuredGen complete parse
    (img2vidPrompt format_instructions scene txt2img_prompt)
    (img2vidRetryPrompt format_instructions scene txt2img_prompt)).1).map
    (fun t => { t with scene_number := scene.scene_number })

/-- `SceneGenerator.generate_image_to_video_prompts`: iterates
`zip(scenes, txt2img_prompts)` (which silently truncates to the shorter
list), one derivation per pair, failure propagating. -/
def generate_image_to_video_prompts (complete : String → String)
    (parse : String → Option ImageToVideoPrompt) (format_instructions : String)
    (scenes : List SceneOutput) (txt2img_prompts : List TextToImagePrompt) :
    Option (List ImageToVideoPrompt) :=
  optTraverse
    (fun p => generate_single_img2vid_prompt complete parse format_instructions
      p.1 p.2)
    (scenes.zip txt2img_prompts)

end SceneGenerator

/-- Executable substring search (used to evaluate `Occurs` on the concrete
prompt strings of the counterexamples below). -/
def occursB (sub : List Char) : List Char → Bool
  | [] => sub.isEmpty
  | c :: t => sub.isPrefixOf (c :: t) || occursB sub t

theorem occursB_iff (sub : List Char) :
    ∀ s : List Char, occursB sub s = true ↔ sub <:+: s := by
  intro s
  induction s with
  | nil => simp [occursB, List.isEmpty_iff]
  | cons c t ih =>
      simp [occursB, List.isPrefixOf_iff_prefix, ih, List.infix_cons_iff]

theorem occurs_iff_occursB (sub s : String) :
    Occurs sub s ↔ occursB sub.data s.data = true :=
  (occursB_iff sub.data s.data).symm

/-- Success of the sequential loop forces one output per input. -/
theorem optTraverse_length {α β : Type} {f : α → Option β} :
    ∀ {xs : List α} {l : List β}, optTraverse f xs = some l →
      l.length = xs.length := by
  intro xs
  induction xs with
  | nil => intro l h; simp [optTraverse] at h; simp [← h]
  | cons x xs ih =>
      intro l h
      simp only [optTraverse] at h
      cases hx : f x with
      | none => rw [hx] at h; simp at h
      | some y =>
          rw [hx] at h
          cases hxs : optTraverse f xs with
          | none => rw [hxs] at h; simp at h
          | some ys =>
              rw [hxs] at h
              simp at h
              simp [← h, ih hxs]

/-- On success, the `j`-th output of the sequential loop is exactly the value
generated from the `j`-th input. -/
theorem optTraverse_getElem? {α β : Type} {f : α → Option β} :
    ∀ {xs : List α} {l : List β}, optTraverse f xs = some l →
      ∀ j : Nat, l[j]? = xs[j]?.bind f := by
  intro xs
  induction xs with
  | nil => intro l h j; simp [optTraverse] at h; subst h; simp
  | cons x xs ih =>
      intro l h j
      simp only [optTraverse] at h
      cases hx : f x with
      | none => rw [hx] at h; simp at h
      | some y =>
          rw [hx] at h
          cases hxs : optTraverse f xs with
          | none => rw [hxs] at h; simp at h
          | some ys =>
              rw [hxs] at h
              simp at h
              cases j with
              | zero => simp [← h, hx]
              | succ j => simpa [← h] using ih hxs j

/-!  Claim theorems. -/

/-- C3: for every structured-generation call site (all four are defined above
as `structuredGen` instances: `AdDetailsGenerator.generate_ad_details`,
`SceneGenerator.generate_single_scene`,
`SceneGenerator.generate_single_txt2img_prompt`,
`SceneGenerator.generate_single_img2vid_prompt`): a successful first parse
means exactly 1 completion invocation; a failed first parse followed by a
successful retry parse means exactly 2 invocations and the second parsed
record is returned; two failed parses mean the failure propagates (`none`)
after exactly 2 invocations, with no third attempt and no fallback. -/
theorem structuredGen_invocation_contract {α : Type} (complete : String → String)
    (parse : String → Option α) (p r : String) :
    (∀ a, parse (complete p) = some a →
      structuredGen complete parse p r = (some a, 1)) ∧
    (∀ b, parse (complete p) = none → parse (complete r) = some b →
      structuredGen complete parse p r = (some b, 2)) ∧
    (parse (complete p) = none → parse (complete r) = none →
      structuredGen complete parse p r = (none, 2)) := by
  refine ⟨?_, ?_, ?_⟩ <;> intros <;> simp [structuredGen, *]

/-- Witness for C3 at a concrete stub: first parse fails, retry succeeds, so
the call returns the second parsed record after exactly 2 invocations. -/
theorem structuredGen_invocation_contract_witness :
    structuredGen (fun s => s) (fun s => if s = "b" then some 7 else none)
      "a" "b" = (some 7, 2) :=
  (structuredGen_invocation_contract (fun s => s)
    (fun s => if s = "b" then some 7 else none) "a" "b").2.1 7
    (by decide) (by decide)

/-- The Pydantic validation step for `TextToImagePrompt`: the fields as parsed
from the raw JSON object, where the two style fields (the only fields the
shape declares defaults for) may be omitted. -/
structure TextToImageParsedFields where
  scene_number : Int
  characters : List CharacterDetails
  action : String
  environment_location : String
  environment_lighting : String
  environment_details : String
  style_type : Option String
  style_technique : String
  style_reference : Option String

/-- Constructing a `TextToImagePrompt` from parsed fields: absent style fields
take the declared defaults. -/
def TextToImagePrompt.ofParsed (f : TextToImageParsedFields) :
    TextToImagePrompt :=
  { scene_number := f.scene_number
    characters := f.characters
    action := f.action
    environment_location := f.environment_location
    environment_lighting := f.environment_lighting
    environment_details := f.environment_details
    style_type := f.style_type.getD "Photorealistic CGI"
    style_technique := f.style_technique
    style_reference := f.style_reference.getD "Gregory Crewdson" }

/-- The Pydantic validation step for `ImageToVideoPrompt` (same shape). -/
structure ImageToVideoParsedFields where
  scene_number : Int
  characters : List CharacterDetails
  action : String
  environment_location : String
  environment_lighting : String
  environment_details : String
  style_type : Option String
  style_technique : String
  style_reference : Option String

/-- Constructing an `ImageToVideoPrompt` from parsed fields: absent style
fields take the declared defaults. -/
def ImageToVideoPrompt.ofParsed (f : ImageToVideoParsedFields) :
    ImageToVideoPrompt :=
  { scene_number := f.scene_number
    characters := f.characters
    action := f.action
    environment_location := f.environment_location
    environment_lighting := f.environment_lighting
    environment_details := f.environment_details
    style_type := f.style_type.getD "Photorealistic CGI"
    style_technique := f.style_technique
    style_reference := f.style_reference.getD "Gregory Crewdson" }

/-- C8: any raw record that validates against the Text-to-Image Prompt or
Image-to-Video Prompt shape while omitting the style fields ends up with
`style_type = "Photorealistic CGI"` and `style_reference = "Gregory Crewdson"`
after parsing. -/
theorem style_defaults_after_parsing (fT : TextToImageParsedFields)
    (fV : ImageToVideoParsedFields) (hT1 : fT.style_type = none)
    (hT2 : fT.style_reference = none) (hV1 : fV.style_type = none)
    (hV2 : fV.style_reference = none) :
    (TextToImagePrompt.ofParsed fT).style_type = "Photorealistic CGI" ∧
    (TextToImagePrompt.ofParsed fT).style_reference = "Gregory Crewdson" ∧
    (ImageToVideoPrompt.ofParsed fV).style_type = "Photorealistic CGI" ∧
    (ImageToVideoPrompt.ofParsed fV).style_reference = "Gregory Crewdson" := by
  simp [TextToImagePrompt.ofParsed, ImageToVideoPrompt.ofParsed,
    hT1, hT2, hV1, hV2]

/-- A concrete parsed record omitting the style fields. -/
def txt2imgParsedFixture : TextToImageParsedFields :=
  { scene_number := 1, characters := [], action := "a"
    environment_location := "b", environment_lighting := "c"
    environment_details := "d", style_type := none
    style_technique := "e", style_reference := none }

/-- A concrete parsed record omitting the style fields. -/
def img2vidParsedFixture : ImageToVideoParsedFields :=
  { scene_number := 1, characters := [], action := "a"
    environment_location := "b", environment_lighting := "c"
    environment_details := "d", style_type := none
    style_technique := "e", style_reference := none }

/-- Witness for C8 at the concrete parsed records. -/
theorem style_defaults_after_parsing_witness :
    (TextToImagePrompt.ofParsed txt2imgParsedFixture).style_type
        = "Photorealistic CGI" ∧
    (TextToImagePrompt.ofParsed txt2imgParsedFixture).style_reference
        = "Gregory Crewdson" ∧
    (ImageToVideoPrompt.ofParsed img2vidParsedFixture).style_type
        = "Photorealistic CGI" ∧
    (ImageToVideoPrompt.ofParsed img2vidParsedFixture).style_reference
        = "Gregory Crewdson" :=
  style_defaults_after_parsing txt2imgParsedFixture img2vidParsedFixture
    rfl rfl rfl rfl

namespace SceneGenerator

/-- On success, the `j`-th generated scene is exactly the result of the
single-scene structured call for loop index `j+1` with the `j`-th resolved
scene input. -/
theorem generate_scenes_getElem? {complete : String → String}
    {parse : String → Option SceneOutput} {format_instructions : String}
    {ad_details : AdDetails} {input_scenes : Option (List Scene)}
    {l : List SceneOutput}
    (h : generate_scenes complete parse format_instructions ad_details
      input_scenes = some l)
    {j : Nat} (hj : j < ad_details.number_of_scenes.toNat) :
    l[j]? = generate_single_scene complete parse format_instructions
      ((j : Int) + 1) ((resolveInputScenes input_scenes).getD j {})
      ad_details := by
  unfold generate_scenes at h
  have hh := optTraverse_getElem? h j
  rw [hh, List.getElem?_range hj]
  rfl

/-- On success, the number of generated scenes equals the declared scene
count. -/
theorem generate_scenes_length {complete : String → String}
    {parse : String → Option SceneOutput} {format_instructions : String}
    {ad_details : AdDetails} {input_scenes : Option (List Scene)}
    {l : List SceneOutput}
    (h : generate_scenes complete parse format_instructions ad_details
      input_scenes = some l) :
    l.length = ad_details.number_of_scenes.toNat := by
  unfold generate_scenes at h
  have hh := optTraverse_length h
  simpa [List.length_range] using hh

end SceneGenerator

/-- C4: with scene count `N ≥ 1` and any (possibly empty or short) list of
scene inputs, a successful `generate_scenes` run returns exactly `N` scene
outputs, the `j`-th generated from the `j`-th supplied scene input when
`j < length`, and from an empty `Scene` (all fields unspecified) otherwise
(`List.getD j {}`); the scene count is authoritative. -/
theorem generate_scenes_count_authoritative (complete : String → String)
    (parse : String → Option SceneOutput) (format_instructions : String)
    (ad_details : AdDetails) (inputs : List Scene) (l : List SceneOutput)
    (hN : 1 ≤ ad_details.number_of_scenes)
    (h : SceneGenerator.generate_scenes complete parse format_instructions
      ad_details (some inputs) = some l) :
    l.length = ad_details.number_of_scenes.toNat ∧
    ∀ j : Nat, j < ad_details.number_of_scenes.toNat →
      l[j]? = SceneGenerator.generate_single_scene complete parse
        format_instructions ((j : Int) + 1) (inputs.getD j {}) ad_details := by
  refine ⟨SceneGenerator.generate_scenes_length h, ?_⟩
  intro j hj
  simpa [SceneGenerator.resolveInputScenes] using
    SceneGenerator.generate_scenes_getElem? h hj

/-- A concrete resolved ad-details record declaring a single scene. -/
def adFixture : AdDetails :=
  { product_name := "P", product_description := "D", target_audience := "T"
    selling_point := "S", key_message := "K", duration_of_ad := "30s"
    tone := "Fun", purpose := "Sell", country := "EG", number_of_scenes := 1 }

/-- A concrete scene output, as a parse stub's fixed return value. -/
def sceneOutputFixture : SceneOutput :=
  { scene_number := 1, characters := "A", environment := "B"
    timing_of_day := "C", scene_duration := "D", scene_goal := "E"
    visuals := "F", camera_work := "G", sound_design := "H"
    transition := "I" }

/-- Witness for C4 at a concrete one-scene run with an empty input list. -/
theorem generate_scenes_count_authoritative_witness :
    ([sceneOutputFixture].length = adFixture.number_of_scenes.toNat ∧
    ∀ j : Nat, j < adFixture.number_of_scenes.toNat →
      [sceneOutputFixture][j]? = SceneGenerator.generate_single_scene
        (fun _ => "") (fun _ => some sceneOutputFixture) ""
        ((j : Int) + 1) (List.getD [] j {}) adFixture) :=
  generate_scenes_count_authoritative (fun _ => "")
    (fun _ => some sceneOutputFixture) "" adFixture [] [sceneOutputFixture]
    (by decide) rfl

/-- C1 (amended): `generate_scenes` produces exactly `N` scene outputs in loop
order, but `_generate_single_scene` performs NO overwrite of the parsed scene
number: whenever the first parse for loop index `j+1` yields a record, that
record is returned at position `j` unmodified, whatever its `scene_number`. -/
theorem generate_scenes_returns_parsed_record_unmodified
    (complete : String → String) (parse : String → Option SceneOutput)
    (format_instructions : String) (ad_details : AdDetails)
    (input_scenes : Option (List Scene)) (l : List SceneOutput)
    (hN : 1 ≤ ad_details.number_of_scenes)
    (h : SceneGenerator.generate_scenes complete parse format_instructions
      ad_details input_scenes = some l) :
    l.length = ad_details.number_of_scenes.toNat ∧
    ∀ j : Nat, j < ad_details.number_of_scenes.toNat →
      ∀ record : SceneOutput,
        parse (complete (SceneGenerator.scenePrompt format_instructions
          ((j : Int) + 1)
          ((SceneGenerator.resolveInputScenes input_scenes).getD j {})
          ad_details)) = some record →
        l[j]? = some record := by
  refine ⟨SceneGenerator.generate_scenes_length h, ?_⟩
  intro j hj record hrec
  rw [SceneGenerator.generate_scenes_getElem? h hj]
  unfold SceneGenerator.generate_single_scene structuredGen
  rw [hrec]

/-- Witness for C1's amended statement at a concrete one-scene run. -/
theorem generate_scenes_returns_parsed_record_unmodified_witness :
    ([sceneOutputFixture].length = adFixture.number_of_scenes.toNat ∧
    ∀ j : Nat, j < adFixture.number_of_scenes.toNat →
      ∀ record : SceneOutput,
        (fun _ => some sceneOutputFixture : String → Option SceneOutput)
          ((fun _ => "" : String → String)
            (SceneGenerator.scenePrompt "" ((j : Int) + 1)
              ((SceneGenerator.resolveInputScenes none).getD j {})
              adFixture)) = some record →
        [sceneOutputFixture][j]? = some record) :=
  generate_scenes_returns_parsed_record_unmodified (fun _ => "")
    (fun _ => some sceneOutputFixture) "" adFixture none [sceneOutputFixture]
    (by decide) rfl

/-- A scene output whose parsed scene number is 42, as returned by a parse
stub. -/
def rogueSceneOutput : SceneOutput :=
  { sceneOutputFixture with scene_number := 42 }

/-- C1 counterexample: with scene count `N = 1 ≥ 1` and a capability whose
parse yields a record with `scene_number = 42`, `generate_scenes` returns
scene numbers `[42]`, not the contiguous sequence `[1]` the claim asserts:
the parsed scene number is NOT overwritten with the loop index. -/
theorem generate_scenes_scene_number_counterexample :
    (SceneGenerator.generate_scenes (fun _ => "")
        (fun _ => some rogueSceneOutput) "" adFixture none).map
      (List.map SceneOutput.scene_number) = some [42] ∧
    adFixture.number_of_scenes = 1 ∧
    ([42] : List Int) ≠ [1] :=
  ⟨rfl, rfl, by decide⟩

/-- C9: two-run independence. If two completion capabilities agree on the two
prompts belonging to scene index `i` (the scene prompt and its reinforced
retry prompt) but may differ arbitrarily elsewhere, then two successful
`generate_scenes` runs agree at index `i`: generation of scene `i` depends
only on the shared ad details, scene `i`'s own input and the completions for
scene `i`'s own prompts — never on another scene's generated output. -/
theorem generate_scenes_per_scene_independence (c1 c2 : String → String)
    (parse : String → Option SceneOutput) (format_instructions : String)
    (ad_details : AdDetails) (input_scenes : Option (List Scene)) (i : Nat)
    (l1 l2 : List SceneOutput)
    (hp : c1 (SceneGenerator.scenePrompt format_instructions ((i : Int) + 1)
        ((SceneGenerator.resolveInputScenes input_scenes).getD i {})
        ad_details)
      = c2 (SceneGenerator.scenePrompt format_instructions ((i : Int) + 1)
        ((SceneGenerator.resolveInputScenes input_scenes).getD i {})
        ad_details))
    (hr : c1 (SceneGenerator.sceneRetryPrompt format_instructions
        ((i : Int) + 1)
        ((SceneGenerator.resolveInputScenes input_scenes).getD i {})
        ad_details)
      = c2 (SceneGenerator.sceneRetryPrompt format_instructions
        ((i : Int) + 1)
        ((SceneGenerator.resolveInputScenes input_scenes).getD i {})
        ad_details))
    (h1 : SceneGenerator.generate_scenes c1 parse format_instructions
      ad_details input_scenes = some l1)
    (h2 : SceneGenerator.generate_scenes c2 parse format_instructions
      ad_details input_scenes = some l2) :
    l1[i]? = l2[i]? := by
  by_cases hi : i < ad_details.number_of_scenes.toNat
  · rw [SceneGenerator.generate_scenes_getElem? h1 hi,
      SceneGenerator.generate_scenes_getElem? h2 hi]
    unfold SceneGenerator.generate_single_scene structuredGen
    rw [hp, hr]
  · rw [List.getElem?_eq_none, List.getElem?_eq_none]
    · rw [SceneGenerator.generate_scenes_length h2]
      omega
    · rw [SceneGenerator.generate_scenes_length h1]
      omega

/-- Witness for C9: two (equal) concrete capabilities over a one-scene run
agree at index 0. -/
theorem generate_scenes_per_scene_independence_witness :
    ([sceneOutputFixture][0]? = [sceneOutputFixture][0]?
      : Prop) :=
  generate_scenes_per_scene_independence (fun _ => "") (fun _ => "")
    (fun _ => some sceneOutputFixture) "" adFixture none 0
    [sceneOutputFixture] [sceneOutputFixture] rfl rfl rfl rfl

namespace SceneGenerator

/-- Whatever the parse capability returns, a successful single img2vid call
carries the source scene's number (forced after parsing on both paths). -/
theorem generate_single_img2vid_prompt_scene_number
    {complete : String → String} {parse : String → Option ImageToVideoPrompt}
    {format_instructions : String} {s : SceneOutput} {p : TextToImagePrompt}
    {t : ImageToVideoPrompt}
    (h : generate_single_img2vid_prompt complete parse format_instructions
      s p = some t) : t.scene_number = s.scene_number := by
  unfold generate_single_img2vid_prompt at h
  rcases Option.map_eq_some'.mp h with ⟨u, _, ht⟩
  rw [← ht]

/-- If every element generates successfully, the sequential loop succeeds. -/
theorem optTraverse_isSome {α β : Type} {f : α → Option β} :
    ∀ {xs : List α}, (∀ x ∈ xs, (f x).isSome) →
      (optTraverse f xs).isSome := by
  intro xs
  induction xs with
  | nil => intro _; simp [optTraverse]
  | cons x xs ih =>
      intro hall
      have hx := hall x (List.mem_cons_self x xs)
      have hxs := ih (fun y hy => hall y (List.mem_cons_of_mem x hy))
      simp only [optTraverse]
      cases hfx : f x with
      | none => rw [hfx] at hx; simp at hx
      | some y =>
          cases hys : optTraverse f xs with
          | none => rw [hys] at hxs; simp at hxs
          | some ys => simp

end SceneGenerator

/-- C7: for index-aligned scene-output and txt2img-prompt lists of equal
length, a successful `generate_image_to_video_prompts` run returns one
img2vid prompt per scene, and the prompt at index `i` has `scene_number`
equal to `scenes[i].scene_number` (forced after parsing on both the
first-attempt and retry paths). -/
theorem generate_image_to_video_prompts_alignment (complete : String → String)
    (parse : String → Option ImageToVideoPrompt) (format_instructions : String)
    (scenes : List SceneOutput) (prompts : List TextToImagePrompt)
    (l : List ImageToVideoPrompt) (hlen : scenes.length = prompts.length)
    (h : SceneGenerator.generate_image_to_video_prompts complete parse
      format_instructions scenes prompts = some l) :
    l.length = scenes.length ∧
    ∀ (i : Nat) (hi : i < l.length) (his : i < scenes.length),
      (l[i]).scene_number = (scenes[i]).scene_number := by
  unfold SceneGenerator.generate_image_to_video_prompts at h
  have hzlen : (scenes.zip prompts).length = scenes.length := by
    simp [List.length_zip, hlen]
  have hlength : l.length = scenes.length := by
    have hh := optTraverse_length h
    rw [hh, hzlen]
  refine ⟨hlength, ?_⟩
  intro i hi his
  have hzi : i < (scenes.zip prompts).length := by rw [hzlen]; exact his
  have he := optTraverse_getElem? h i
  rw [List.getElem?_eq_getElem hi, List.getElem?_eq_getElem hzi] at he
  rw [List.getElem_zip] at he
  simp only [Option.some_bind] at he
  exact SceneGenerator.generate_single_img2vid_prompt_scene_number he.symm

/-- A concrete text-to-image prompt record. -/
def txt2imgFixture : TextToImagePrompt :=
  { scene_number := 1, characters := [], action := "a"
    environment_location := "b", environment_lighting := "c"
    environment_details := "d", style_technique := "e" }

/-- A concrete image-to-video prompt record whose parsed scene number (7)
disagrees with the source scene, as a parse stub's fixed return value. -/
def rogueImg2VidFixture : ImageToVideoPrompt :=
  { scene_number := 7, characters := [], action := "a"
    environment_location := "b", environment_lighting := "c"
    environment_details := "d", style_technique := "e" }

/-- Witness for C7 at a concrete one-scene run. -/
theorem generate_image_to_video_prompts_alignment_witness :
    ([({ rogueImg2VidFixture with scene_number := sceneOutputFixture.scene_number } : ImageToVideoPrompt)].length = [sceneOutputFixture].length ∧
    ∀ (i : Nat)
      (hi : i < [({ rogueImg2VidFixture with scene_number := sceneOutputFixture.scene_number } : ImageToVideoPrompt)].length)
      (his : i < [sceneOutputFixture].length),
      ([({ rogueImg2VidFixture with scene_number := sceneOutputFixture.scene_number } : ImageToVideoPrompt)][i]).scene_number
        = ([sceneOutputFixture][i]).scene_number) :=
  generate_image_to_video_prompts_alignment (fun _ => "")
    (fun _ => some rogueImg2VidFixture) "" [sceneOutputFixture]
    [txt2imgFixture]
    [{ rogueImg2VidFixture with scene_number := sceneOutputFixture.scene_number }]
    rfl rfl

/-- C10: with lists of unequal length, `generate_image_to_video_prompts`
raises no error: it iterates `zip(scenes, txt2img_prompts)`, so (1) any
successful result has exactly `min` length, (2) the run is identical to the
run on the truncated lists (surplus silently ignored), and (3) success of
each per-pair call yields overall success. -/
theorem generate_image_to_video_prompts_truncates (complete : String → String)
    (parse : String → Option ImageToVideoPrompt) (format_instructions : String)
    (scenes : List SceneOutput) (prompts : List TextToImagePrompt) :
    (∀ l, SceneGenerator.generate_image_to_video_prompts complete parse
        format_instructions scenes prompts = some l →
      l.length = min scenes.length prompts.length) ∧
    SceneGenerator.generate_image_to_video_prompts complete parse
        format_instructions scenes prompts
      = SceneGenerator.generate_image_to_video_prompts complete parse
          format_instructions
          (scenes.take (min scenes.length prompts.length))
          (prompts.take (min scenes.length prompts.length)) ∧
    ((∀ pr ∈ scenes.zip prompts,
        (SceneGenerator.generate_single_img2vid_prompt complete parse
          format_instructions pr.1 pr.2).isSome) →
      (SceneGenerator.generate_image_to_video_prompts complete parse
        format_instructions scenes prompts).isSome) := by
  refine ⟨?_, ?_, ?_⟩
  · intro l h
    unfold SceneGenerator.generate_image_to_video_prompts at h
    have hh := optTraverse_length h
    rw [hh, List.length_zip]
  · unfold SceneGenerator.generate_image_to_video_prompts
    rw [show scenes.zip prompts
      = (scenes.take (min scenes.length prompts.length)).zip
        (prompts.take (min scenes.length prompts.length))
      from List.zip_eq_zip_take_min scenes prompts]
  · intro hall
    exact SceneGenerator.optTraverse_isSome hall

/-- An occurrence inside `a ++ b` lies inside `a`, inside `b`, or inside the
seam window of width `k` on each side of the boundary (for `t` of length at
most `k + 1`). -/
theorem infix_append_cases {α : Type} {t a b : List α} (k : Nat)
    (hk : t.length ≤ k + 1) (h : t <:+: a ++ b) :
    t <:+: a ∨ t <:+: b ∨ t <:+: a.drop (a.length - k) ++ b.take k := by
  rcases h with ⟨u, v, huv⟩
  have huv2 : u ++ (t ++ v) = a ++ b := by rw [← List.append_assoc]; exact huv
  rcases List.append_eq_append_iff.mp huv2 with ⟨w, hw1, hw2⟩ | ⟨w, hw1, hw2⟩
  · rcases List.append_eq_append_iff.mp hw2 with ⟨x, hx1, hx2⟩ | ⟨x, hx1, hx2⟩
    · exact Or.inl ⟨u, x, by rw [hw1, hx1, List.append_assoc]⟩
    · by_cases hwnil : w = []
      · have ht : t = x := by rw [hx1, hwnil]; simp
        exact Or.inr (Or.inl ⟨[], v, by rw [ht, hx2]; simp⟩)
      by_cases hxnil : x = []
      · have ht : t = w := by rw [hx1, hxnil]; simp
        exact Or.inl ⟨u, [], by rw [ht, hw1]; simp⟩
      have hlen : t.length = w.length + x.length := by
        rw [hx1, List.length_append]
      have hwpos : 0 < w.length := List.length_pos.mpr hwnil
      have hxpos : 0 < x.length := List.length_pos.mpr hxnil
      have hwk : w.length ≤ k := by omega
      have hxk : x.length ≤ k := by omega
      refine Or.inr (Or.inr ?_)
      have hdrop : a.drop (a.length - k) = u.drop (a.length - k) ++ w := by
        rw [hw1]
        refine List.drop_append_of_le_length ?_
        rw [List.length_append]
        omega
      have htake : b.take k = x ++ v.take (k - x.length) := by
        rw [hx2, List.take_append_eq_append_take,
          List.take_of_length_le hxk]
      refine ⟨u.drop (a.length - k), v.take (k - x.length), ?_⟩
      rw [hdrop, htake, hx1]
      simp [List.append_assoc]
  · exact Or.inr (Or.inl ⟨w, v, by rw [hw2, List.append_assoc]⟩)

/-- Concatenation of character chunks. -/
def listConcat : List (List Char) → List Char
  | [] => []
  | c :: cs => c ++ listConcat cs

/-- Chunk-wise absence check: `t` occurs in no chunk and in no seam window of
width `k` on each side of any chunk boundary. -/
def noOccChunks (t : List Char) (k : Nat) : List (List Char) → Bool
  | [] => true
  | c :: cs =>
    !(occursB t c) &&
    !(occursB t (c.drop (c.length - k) ++ (listConcat cs).take k)) &&
    noOccChunks t k cs

theorem noOccChunks_sound (t : List Char) (k : Nat) (hk : t.length ≤ k + 1)
    (htne : t ≠ []) :
    ∀ cs : List (List Char), noOccChunks t k cs = true →
      ¬ (t <:+: listConcat cs) := by
  intro cs
  induction cs with
  | nil =>
      intro _ habs
      exact htne (by simpa [listConcat] using List.eq_nil_of_infix_nil habs)
  | cons c cs ih =>
      intro hchk habs
      simp only [noOccChunks, Bool.and_eq_true, Bool.not_eq_true'] at hchk
      obtain ⟨⟨h1, h2⟩, h3⟩ := hchk
      rcases infix_append_cases k hk habs with hc | hcs | hwin
      · rw [← occursB_iff] at hc
        rw [hc] at h1
        cases h1
      · exact ih h3 hcs
      · rw [← occursB_iff] at hwin
        rw [hwin] at h2
        cases h2

theorem strConcat_data :
    ∀ L : List String, (strConcat L).data = listConcat (L.map String.data) := by
  intro L
  induction L with
  | nil => rfl
  | cons c cs ih => simp [strConcat, listConcat, String.data_append, ih]

/-- Non-occurrence over a chunked string, via the executable chunk check. -/
theorem not_occurs_of_chunks {t : String} {L : List String} (k : Nat)
    (hk : t.data.length ≤ k + 1) (htne : t.data ≠ [])
    (hchk : noOccChunks t.data k (L.map String.data) = true) :
    ¬ Occurs t (strConcat L) := by
  intro h
  exact noOccChunks_sound t.data k hk htne (L.map String.data) hchk
    (by rwa [← strConcat_data])

/-- Non-occurrence from an executable whole-string check. -/
theorem not_occurs_of_occursB_false {t s : String}
    (h : occursB t.data s.data = false) : ¬ Occurs t s := by
  intro hc
  rw [occurs_iff_occursB] at hc
  rw [h] at hc
  cases hc

/-- A campaign request with every field absent. -/
def emptyRequestFixture : AdStoryboardRequest := {}

set_option maxRecDepth 40000 in
/-- C5 counterexample: for the concrete campaign request with every field
absent, the instruction body renders `- Number of Scenes: None` — the Python
f-string interpolates the absent value directly — and nowhere contains the
sentinel line `- Number of Scenes: Not specified` the claim asserts. -/
theorem adDetailsPrompt_number_of_scenes_counterexample :
    Occurs "- Number of Scenes: None"
      (AdDetailsGenerator.adDetailsPrompt "" emptyRequestFixture) ∧
    ¬ Occurs "- Number of Scenes: Not specified"
      (AdDetailsGenerator.adDetailsPrompt "" emptyRequestFixture) :=
  ⟨(occurs_iff_occursB _ _).mpr (by rfl),
    not_occurs_of_occursB_false (by rfl)⟩

/-- C5 (amended): the instruction body enumerates every request field; each of
the nine string-valued fields renders the "Not specified" sentinel when
absent, but `number_of_scenes` is interpolated directly and renders as the
Python text "None" when absent, not as the sentinel. -/
theorem adDetailsPrompt_field_sentinels (format_instructions : String)
    (request : AdStoryboardRequest) :
    (request.product_name = none → Occurs "- Product Name: Not specified"
      (AdDetailsGenerator.adDetailsPrompt format_instructions request)) ∧
    (request.product_description = none →
      Occurs "- Product Description: Not specified"
      (AdDetailsGenerator.adDetailsPrompt format_instructions request)) ∧
    (request.target_audience = none →
      Occurs "- Target Audience: Not specified"
      (AdDetailsGenerator.adDetailsPrompt format_instructions request)) ∧
    (request.selling_point = none → Occurs "- Selling Point: Not specified"
      (AdDetailsGenerator.adDetailsPrompt format_instructions request)) ∧
    (request.key_message = none → Occurs "- Key Message: Not specified"
      (AdDetailsGenerator.adDetailsPrompt format_instructions request)) ∧
    (request.duration_of_ad = none → Occurs "- Duration of Ad: Not specified"
      (AdDetailsGenerator.adDetailsPrompt format_instructions request)) ∧
    (request.tone = none → Occurs "- Tone: Not specified"
      (AdDetailsGenerator.adDetailsPrompt format_instructions request)) ∧
    (request.purpose = none → Occurs "- Purpose: Not specified"
      (AdDetailsGenerator.adDetailsPrompt format_instructions request)) ∧
    (request.country = none → Occurs "- Country: Not specified"
      (AdDetailsGenerator.adDetailsPrompt format_instructions request)) ∧
    (request.number_of_scenes = none → Occurs "- Number of Scenes: None"
      (AdDetailsGenerator.adDetailsPrompt format_instructions request)) := by
  refine ⟨?_, ?_, ?_, ?_, ?_, ?_, ?_, ?_, ?_, ?_⟩ <;>
    intro h <;> unfold AdDetailsGenerator.adDetailsPrompt
  · refine occurs_concat
      (c := "- Product Name: " ++ pyOr request.product_name "Not specified")
      (by simp) ?_
    rw [h]; decide
  · refine occurs_concat
      (c := "- Product Description: "
        ++ pyOr request.product_description "Not specified")
      (by simp) ?_
    rw [h]; decide
  · refine occurs_concat
      (c := "- Target Audience: "
        ++ pyOr request.target_audience "Not specified")
      (by simp) ?_
    rw [h]; decide
  · refine occurs_concat
      (c := "- Selling Point: " ++ pyOr request.selling_point "Not specified")
      (by simp) ?_
    rw [h]; decide
  · refine occurs_concat
      (c := "- Key Message: " ++ pyOr request.key_message "Not specified")
      (by simp) ?_
    rw [h]; decide
  · refine occurs_concat
      (c := "- Duration of Ad: " ++ pyOr request.duration_of_ad "Not specified")
      (by simp) ?_
    rw [h]; decide
  · refine occurs_concat
      (c := "- Tone: " ++ pyOr request.tone "Not specified")
      (by simp) ?_
    rw [h]; decide
  · refine occurs_concat
      (c := "- Purpose: " ++ pyOr request.purpose "Not specified")
      (by simp) ?_
    rw [h]; decide
  · refine occurs_concat
      (c := "- Country: " ++ pyOr request.country "Not specified")
      (by simp) ?_
    rw [h]; decide
  · refine occurs_concat
      (c := "- Number of Scenes: " ++ pyStrOptInt request.number_of_scenes)
      (by simp) ?_
    rw [h]; decide

/-- C6: when a scene input carries a truthy verbatim override `r`, the
instruction body composed by `_generate_single_scene` contains the critical
must-preserve-verbatim section with the override spliced in unmodified (and
hence contains `r` itself, verbatim): stage logic never alters the override
text before passing it to the completion capability. -/
theorem scene_prompt_contains_override_verbatim (format_instructions : String)
    (scene_number : Int) (input_scene : Scene) (ad_details : AdDetails)
    (r : String) (h : input_scene.user_recommendation = some r)
    (hne : r ≠ "") :
    Occurs
      ("CRITICAL USER SCENE DESCRIPTION - MUST INCLUDE VERBATIM:\n        "
        ++ r)
      (SceneGenerator.scenePrompt format_instructions scene_number input_scene
        ad_details) ∧
    Occurs r (SceneGenerator.scenePrompt format_instructions scene_number
      input_scene ad_details) := by
  have hpri : SceneGenerator.scenePriorityInstructions input_scene
      = SceneGenerator.scenePriorityBlock r := by
    unfold SceneGenerator.scenePriorityInstructions
    rw [h]
    simp [hne]
  constructor
  · unfold SceneGenerator.scenePrompt
    refine occurs_concat
      (c := SceneGenerator.scenePriorityInstructions input_scene)
      (by simp) ?_
    rw [hpri]
    unfold SceneGenerator.scenePriorityBlock
    exact occurs_concat
      (c := "CRITICAL USER SCENE DESCRIPTION - MUST INCLUDE VERBATIM:\n        " ++ r)
      (by simp) (occurs_self _)
  · unfold SceneGenerator.scenePrompt
    refine occurs_concat
      (c := SceneGenerator.scenePriorityInstructions input_scene)
      (by simp) ?_
    rw [hpri]
    unfold SceneGenerator.scenePriorityBlock
    exact occurs_concat
      (c := "CRITICAL USER SCENE DESCRIPTION - MUST INCLUDE VERBATIM:\n        " ++ r)
      (by simp)
      ((occurs_self r).appendRight
        "CRITICAL USER SCENE DESCRIPTION - MUST INCLUDE VERBATIM:\n        ")

/-- A scene input carrying only a verbatim override. -/
def overrideSceneFixture : Scene :=
  { user_recommendation := some "character waves at camera in slow motion" }

/-- Witness for C6 at a concrete scene input with a verbatim override. -/
theorem scene_prompt_contains_override_verbatim_witness :
    Occurs
      ("CRITICAL USER SCENE DESCRIPTION - MUST INCLUDE VERBATIM:\n        "
        ++ "character waves at camera in slow motion")
      (SceneGenerator.scenePrompt "" 1 overrideSceneFixture adFixture) ∧
    Occurs "character waves at camera in slow motion"
      (SceneGenerator.scenePrompt "" 1 overrideSceneFixture adFixture) :=
  scene_prompt_contains_override_verbatim "" 1 overrideSceneFixture adFixture
    "character waves at camera in slow motion" rfl (by decide)

/-- The verbatim override of the end-to-end scenario. -/
def overrideFixture : String := "character waves at camera in slow motion"

set_option maxRecDepth 40000 in
/-- C2 (code bug): `models.SceneOutput` declares no `user_recommendation`
field, so the `getattr(scene, "user_recommendation", None)` probe in both
prompt-derivation sub-steps always yields `None`: the `priority_instructions`
override block is empty for EVERY scene output, and — evaluated at a concrete
scene output such as one derived from a scene input whose override was
"character waves at camera in slow motion" — neither composed prompt contains
the override text, contradicting the re-assertion the spec describes. -/
theorem prompt_derivation_drops_override :
    (∀ scene : SceneOutput, SceneGenerator.sceneOutputUserRec scene = none ∧
      SceneGenerator.txt2imgPriorityInstructions scene = "" ∧
      SceneGenerator.img2vidPriorityInstructions scene = "") ∧
    ¬ Occurs overrideFixture
      (SceneGenerator.txt2imgPrompt "" sceneOutputFixture) ∧
    ¬ Occurs overrideFixture
      (SceneGenerator.img2vidPrompt "" sceneOutputFixture txt2imgFixture) :=
  ⟨fun _ => ⟨rfl, rfl, rfl⟩,
    not_occurs_of_chunks 40 (by decide) (by decide) (by rfl),
    not_occurs_of_chunks 40 (by decide) (by decide) (by rfl)⟩
